import Mathlib

/-!
Shallow embedding of the geographic-data module of the repository
(`getClimateZone`, `getElevationFromCoordinates`, `getCoastalInfluence`,
`getGeographicData`, `getCropSuitability`).

Modelling conventions:
* JavaScript numbers that stay inside exact rational arithmetic are
  modelled as `ℚ`; intermediate quantities that flow through the
  transcendental functions `Math.sqrt`, `Math.sin`, `Math.cos` are
  modelled in `ℝ`.
* `Math.round` is Mathlib's `round` (both send `x` to `⌊x + 1/2⌋`,
  ties toward positive infinity), `Math.floor` is `Int.floor`,
  `Math.max`/`Math.min` are `max`/`min`.
* The JavaScript remainder operator `%` truncates toward zero and
  keeps the sign of the dividend; it is modelled by `jsMod`.
* Every call of the ambient `Math.random()` is replaced by an explicit
  field of a `RandomSource` record passed to the function, one field
  per syntactic call site, in program order.
* The per-crop requirement table is a plain object literal, so a bracket
  lookup with an `Object.prototype` member name (`"toString"`, `"valueOf"`,
  ...) finds the inherited truthy member and the subsequent
  `requirements.tempRange[0]` access throws a `TypeError`;
  `getCropSuitability` therefore returns `Option ℤ`, `none` on that
  throwing path.
-/

inductive SoilType where
  | clay
  | sandy
  | loam
  | rocky
  | peat
deriving DecidableEq, Repr

/-- The record type returned by `getGeographicData` (interface `GeographicData`). -/
structure GeographicData where
  soilType : SoilType
  waterLevel : ℚ
  moistureLevel : ℚ
  temperature : ℚ
  rainfall : ℚ
  soilPH : ℚ
  elevation : ℚ
deriving DecidableEq, Repr

/-- The record type of climate-zone entries (interface `ClimateZone`). -/
structure ClimateZone where
  name : String
  baseTemperature : ℚ
  baseRainfall : ℚ
  baseMoisture : ℚ
  dominantSoilType : SoilType
deriving DecidableEq, Repr

/-- Embedding of `getClimateZone` from `src/unnamed/part_005`, lines 23-81. -/
def getClimateZone (lat : ℚ) : ClimateZone :=
  let absLat := |lat|
  if 66.5 ≤ absLat then
    { name := "Polar", baseTemperature := -5, baseRainfall := 300,
      baseMoisture := 85, dominantSoilType := SoilType.rocky }
  else if 60 ≤ absLat then
    { name := "Subarctic", baseTemperature := 5, baseRainfall := 500,
      baseMoisture := 75, dominantSoilType := SoilType.peat }
  else if 40 ≤ absLat then
    { name := "Continental", baseTemperature := 15, baseRainfall := 800,
      baseMoisture := 65, dominantSoilType := SoilType.loam }
  else if 30 ≤ absLat then
    { name := "Subtropical", baseTemperature := 22, baseRainfall := 1200,
      baseMoisture := 70, dominantSoilType := SoilType.clay }
  else if 23.5 ≤ absLat then
    { name := "Tropical", baseTemperature := 27, baseRainfall := 2000,
      baseMoisture := 80, dominantSoilType := SoilType.clay }
  else
    { name := "Equatorial", baseTemperature := 26, baseRainfall := 2500,
      baseMoisture := 85, dominantSoilType := SoilType.loam }

/-- Truncation toward zero, the rounding used by the JavaScript `%` operator. -/
def ratTrunc (x : ℚ) : ℤ :=
  if 0 ≤ x then ⌊x⌋ else ⌈x⌉

/-- JavaScript remainder `a % b`: `a - b * trunc (a / b)`, sign of the dividend. -/
def jsMod (a b : ℚ) : ℚ :=
  a - b * (ratTrunc (a / b) : ℚ)

/-- Embedding of `getCoastalInfluence` from `src/unnamed/part_005`, lines 113-121.
The `lat` argument is present in the source but never used by the body. -/
def getCoastalInfluence (lat lng : ℚ) : ℚ :=
  let coastalProximity := min |jsMod lng 60| |jsMod (lng + 180) 60|
  max 0 ((20 - coastalProximity) / 20)

/-- One reference mountain range of `getElevationFromCoordinates`. -/
structure MountainRegion where
  lat : ℚ
  lng : ℚ
  elevation : ℚ
deriving DecidableEq, Repr

/-- The four reference regions of `getElevationFromCoordinates` (Rockies, Alps,
Himalayas, Andes). -/
def mountainousRegions : List MountainRegion :=
  [{ lat := 40, lng := -105, elevation := 2000 },
   { lat := 46, lng := 8, elevation := 1500 },
   { lat := 28, lng := 84, elevation := 3000 },
   { lat := -22, lng := -65, elevation := 2500 }]

/-- Embedding of `getElevationFromCoordinates` from `src/unnamed/part_005`,
lines 84-110.  `r` is the one `Math.random()` draw of the function. -/
noncomputable def getElevationFromCoordinates (lat lng : ℚ) (r : ℝ) : ℤ :=
  let baseElevation : ℝ :=
    mountainousRegions.foldl
      (fun acc region =>
        let distance : ℝ :=
          Real.sqrt (((lat : ℝ) - (region.lat : ℝ)) ^ 2 +
            ((lng : ℝ) - (region.lng : ℝ)) ^ 2)
        if distance < 10 then acc + (region.elevation : ℝ) * (1 - distance / 10)
        else acc)
      200
  max 0 (round (baseElevation + (r - 0.5) * 400))

/-- One value per `Math.random()` call site of `getGeographicData` (and of the
helper `getElevationFromCoordinates` it calls), in program order. -/
structure RandomSource where
  elevationDraw : ℝ
  temperatureDraw : ℝ
  rainfallDraw : ℝ
  moistureDraw : ℝ
  waterDraw : ℝ
  soilOverrideDraw : ℝ
  soilPickDraw : ℝ
  phDraw : ℝ

/-- The five-member soil-type list used for the random soil-type override. -/
def soilTypes : List SoilType :=
  [SoilType.clay, SoilType.sandy, SoilType.loam, SoilType.rocky, SoilType.peat]

/-- Embedding of `getGeographicData` from `src/unnamed/part_005`, lines 123-212. -/
noncomputable def getGeographicData (lat lng : ℚ) (rng : RandomSource) : GeographicData :=
  let climateZone := getClimateZone lat
  let elevation : ℤ := getElevationFromCoordinates lat lng rng.elevationDraw
  let coastalInfluence : ℚ := getCoastalInfluence lat lng
  let elevationTempAdjustment : ℚ := (elevation : ℚ) * (-0.006)
  let coastalTempModeration : ℚ := coastalInfluence * 3
  let seasonalVariation : ℝ := (rng.temperatureDraw - 0.5) * 10
  let temperature : ℤ :=
    round ((climateZone.baseTemperature : ℝ) + (elevationTempAdjustment : ℝ) +
      (coastalTempModeration : ℝ) + seasonalVariation)
  let elevationRainfallEffect : ℚ := if 1000 < elevation then (elevation : ℚ) * 0.5 else 0
  let coastalRainfallEffect : ℚ := coastalInfluence * 300
  let continentalityEffect : ℚ := (1 - coastalInfluence) * (-200)
  let rainfall : ℤ :=
    max 100 (round ((climateZone.baseRainfall : ℝ) + (elevationRainfallEffect : ℝ) +
      (coastalRainfallEffect : ℝ) + (continentalityEffect : ℝ) +
      (rng.rainfallDraw - 0.5) * 400))
  let elevationMoistureEffect : ℚ := if 500 < elevation then -(elevation : ℚ) * 0.01 else 0
  let rainfallMoistureEffect : ℚ := ((rainfall : ℚ) - 800) * 0.02
  let moistureLevel : ℤ :=
    max 20 (min 100 (round ((climateZone.baseMoisture : ℝ) +
      (elevationMoistureEffect : ℝ) + (rainfallMoistureEffect : ℝ) +
      (coastalInfluence : ℝ) * 15 + (rng.moistureDraw - 0.5) * 20)))
  let riverProximity : ℝ := Real.sin ((lat : ℝ) * 0.1) * Real.cos ((lng : ℝ) * 0.1)
  let groundwaterEffect : ℚ := if elevation < 100 then 20 else -(elevation : ℚ) * 0.02
  let waterLevel : ℤ :=
    max 10 (min 100 (round ((60 : ℝ) +
      (((rainfall : ℚ) - 800) * 0.03 : ℚ) + riverProximity * 20 +
      (groundwaterEffect : ℝ) + (coastalInfluence : ℝ) * 10 +
      (rng.waterDraw - 0.5) * 25)))
  let soilTypeBase := climateZone.dominantSoilType
  let soilTypeAdjusted :=
    if 2000 < elevation then SoilType.rocky
    else if (0.7 : ℚ) < coastalInfluence then SoilType.sandy
    else if 2000 < rainfall ∧ 20 < temperature then SoilType.clay
    else if temperature < 5 then SoilType.peat
    else soilTypeBase
  let soilType :=
    if rng.soilOverrideDraw < 0.2 then
      soilTypes.getD (⌊rng.soilPickDraw * 5⌋).toNat SoilType.clay
    else soilTypeAdjusted
  let basePH : ℚ :=
    if soilType = SoilType.peat then 4.5
    else if soilType = SoilType.sandy then 6.5
    else if soilType = SoilType.clay then 7.2
    else if soilType = SoilType.rocky then 7.8
    else 6.8
  let soilPH : ℚ :=
    max 3 (min 9 ((round (((basePH : ℝ) + (rng.phDraw - 0.5) * 2) * 10) : ℚ) / 10))
  { soilType := soilType,
    waterLevel := (waterLevel : ℚ),
    moistureLevel := (moistureLevel : ℚ),
    temperature := (temperature : ℚ),
    rainfall := (rainfall : ℚ),
    soilPH := soilPH,
    elevation := (elevation : ℚ) }

/-- One entry of the per-crop requirement table of `getCropSuitability`. -/
structure CropRequirement where
  tempRange : ℚ × ℚ
  rainfallRange : ℚ × ℚ
  preferredSoil : List SoilType
  phRange : ℚ × ℚ
deriving DecidableEq, Repr

/-- The `'Corn Production'` entry of the requirement table. -/
def cornRequirements : CropRequirement :=
  { tempRange := (15, 30), rainfallRange := (600, 1200),
    preferredSoil := [SoilType.loam, SoilType.clay], phRange := (6.0, 7.0) }

/-- The requirement table of `getCropSuitability` (`src/unnamed/part_005`,
lines 216-270) as a lookup from crop identifier to entry; a key that is not
one of the eight identifiers yields `none` (JavaScript `undefined`). -/
def cropRequirements (cropType : String) : Option CropRequirement :=
  if cropType = "Corn Production" then some cornRequirements
  else if cropType = "Wheat Production" then some
    { tempRange := (10, 25), rainfallRange := (400, 800),
      preferredSoil := [SoilType.loam, SoilType.clay], phRange := (6.5, 7.5) }
  else if cropType = "Rice Production" then some
    { tempRange := (20, 35), rainfallRange := (1000, 2500),
      preferredSoil := [SoilType.clay, SoilType.loam], phRange := (5.5, 7.0) }
  else if cropType = "Coffee Production" then some
    { tempRange := (18, 24), rainfallRange := (1200, 2000),
      preferredSoil := [SoilType.loam, SoilType.clay], phRange := (6.0, 7.0) }
  else if cropType = "Soybean Production" then some
    { tempRange := (20, 30), rainfallRange := (500, 1000),
      preferredSoil := [SoilType.loam, SoilType.clay], phRange := (6.0, 7.5) }
  else if cropType = "Tomato Production" then some
    { tempRange := (18, 27), rainfallRange := (400, 800),
      preferredSoil := [SoilType.loam, SoilType.sandy], phRange := (6.0, 7.0) }
  else if cropType = "Potato Production" then some
    { tempRange := (15, 20), rainfallRange := (400, 700),
      preferredSoil := [SoilType.loam, SoilType.sandy], phRange := (5.5, 6.5) }
  else if cropType = "Dairy Production" then some
    { tempRange := (5, 25), rainfallRange := (600, 1500),
      preferredSoil := [SoilType.loam, SoilType.clay], phRange := (6.0, 7.5) }
  else none

/-- The `tempScore` component of `getCropSuitability` (lines 275-278). -/
def tempScore (geoData : GeographicData) (requirements : CropRequirement) : ℚ :=
  if requirements.tempRange.1 ≤ geoData.temperature ∧
      geoData.temperature ≤ requirements.tempRange.2 then 100
  else max 0 (100 -
    |geoData.temperature - (requirements.tempRange.1 + requirements.tempRange.2) / 2| * 5)

/-- The `rainfallScore` component of `getCropSuitability` (lines 280-283). -/
def rainfallScore (geoData : GeographicData) (requirements : CropRequirement) : ℚ :=
  if requirements.rainfallRange.1 ≤ geoData.rainfall ∧
      geoData.rainfall ≤ requirements.rainfallRange.2 then 100
  else max 0 (100 -
    |geoData.rainfall - (requirements.rainfallRange.1 + requirements.rainfallRange.2) / 2| * 0.1)

/-- The `soilScore` component of `getCropSuitability` (line 285). -/
def soilScore (geoData : GeographicData) (requirements : CropRequirement) : ℚ :=
  if geoData.soilType ∈ requirements.preferredSoil then 100 else 60

/-- The `phScore` component of `getCropSuitability` (lines 287-290). -/
def phScore (geoData : GeographicData) (requirements : CropRequirement) : ℚ :=
  if requirements.phRange.1 ≤ geoData.soilPH ∧
      geoData.soilPH ≤ requirements.phRange.2 then 100
  else max 0 (100 -
    |geoData.soilPH - (requirements.phRange.1 + requirements.phRange.2) / 2| * 20)

/-- The eight crop identifiers present in the requirement table. -/
def knownCropTypes : List String :=
  ["Corn Production", "Wheat Production", "Rice Production", "Coffee Production",
   "Soybean Production", "Tomato Production", "Potato Production", "Dairy Production"]

/-- The property names of JavaScript `Object.prototype`.  The requirement
table of `getCropSuitability` is a plain object literal, so a bracket lookup
with one of these keys finds the inherited prototype member — a function, or
`Object.prototype` itself for the last entry — which is truthy, so the `||`
fallback of line 272 does not fire. -/
def objectPrototypeKeys : List String :=
  ["constructor", "hasOwnProperty", "isPrototypeOf", "propertyIsEnumerable",
   "toLocaleString", "toString", "valueOf", "__defineGetter__",
   "__defineSetter__", "__lookupGetter__", "__lookupSetter__", "__proto__"]

/-- Embedding of `getCropSuitability` from `src/unnamed/part_005`, lines 215-293.
The bracket lookup `cropRequirements[cropType]` on the object literal finds the
own entry for the eight table keys (none of which is a prototype member name),
an inherited truthy `Object.prototype` member for the names in
`objectPrototypeKeys`, and `undefined` otherwise.  In the inherited case the
`||` fallback does not fire, `requirements.tempRange` is `undefined`, and the
access `requirements.tempRange[0]` at line 277 throws a `TypeError`, modelled
as `none`; in the `undefined` case the `||` falls back to the corn entry. -/
def getCropSuitability (geoData : GeographicData) (cropType : String) : Option ℤ :=
  if cropType ∈ objectPrototypeKeys then none
  else
    let requirements := (cropRequirements cropType).getD cornRequirements
    some (round ((tempScore geoData requirements + rainfallScore geoData requirements +
      soilScore geoData requirements + phScore geoData requirements) / 4))

/-! Helper lemmas. -/

lemma ratTrunc_nonneg_eval (x : ℚ) (q : ℤ) (h0 : 0 ≤ x) (h1 : (q : ℚ) ≤ x)
    (h2 : x < q + 1) : ratTrunc x = q := by
  rw [ratTrunc, if_pos h0]
  exact Int.floor_eq_iff.mpr ⟨h1, by exact_mod_cast h2⟩

lemma ratTrunc_neg_eval (x : ℚ) (q : ℤ) (h0 : x < 0) (h1 : (q : ℚ) - 1 < x)
    (h2 : x ≤ q) : ratTrunc x = q := by
  rw [ratTrunc, if_neg (not_le.mpr h0)]
  exact Int.ceil_eq_iff.mpr ⟨by exact_mod_cast h1, by exact_mod_cast h2⟩

lemma jsMod_eval (a b : ℚ) (q : ℤ) (h : ratTrunc (a / b) = q) :
    jsMod a b = a - b * q := by
  rw [jsMod, h]

lemma round_le_round (x y : ℚ) (h : x ≤ y) : round x ≤ round y := by
  rw [round_eq, round_eq]
  exact Int.floor_le_floor (by linarith)

lemma tempScore_nonneg (g : GeographicData) (r : CropRequirement) :
    0 ≤ tempScore g r := by
  rw [tempScore]; split
  · norm_num
  · exact le_max_left 0 _

lemma tempScore_le_100 (g : GeographicData) (r : CropRequirement) :
    tempScore g r ≤ 100 := by
  rw [tempScore]; split
  · exact le_refl _
  · exact max_le (by norm_num) (by nlinarith [abs_nonneg (g.temperature - (r.tempRange.1 + r.tempRange.2) / 2)])

lemma rainfallScore_nonneg (g : GeographicData) (r : CropRequirement) :
    0 ≤ rainfallScore g r := by
  rw [rainfallScore]; split
  · norm_num
  · exact le_max_left 0 _

lemma rainfallScore_le_100 (g : GeographicData) (r : CropRequirement) :
    rainfallScore g r ≤ 100 := by
  rw [rainfallScore]; split
  · exact le_refl _
  · exact max_le (by norm_num) (by nlinarith [abs_nonneg (g.rainfall - (r.rainfallRange.1 + r.rainfallRange.2) / 2)])

lemma soilScore_ge_60 (g : GeographicData) (r : CropRequirement) :
    60 ≤ soilScore g r := by
  rw [soilScore]; split <;> norm_num

lemma soilScore_le_100 (g : GeographicData) (r : CropRequirement) :
    soilScore g r ≤ 100 := by
  rw [soilScore]; split <;> norm_num

lemma phScore_nonneg (g : GeographicData) (r : CropRequirement) :
    0 ≤ phScore g r := by
  rw [phScore]; split
  · norm_num
  · exact le_max_left 0 _

lemma phScore_le_100 (g : GeographicData) (r : CropRequirement) :
    phScore g r ≤ 100 := by
  rw [phScore]; split
  · exact le_refl _
  · exact max_le (by norm_num) (by nlinarith [abs_nonneg (g.soilPH - (r.phRange.1 + r.phRange.2) / 2)])

/-- C2 counterexample: at the identifier `"toString"` the bracket lookup finds
the inherited `Object.prototype.toString`, the `||` fallback does not fire,
and `requirements.tempRange[0]` throws a `TypeError`: the program returns no
integer at all, so it does have an error path. -/
theorem getCropSuitability_toString_counterexample :
    getCropSuitability
      { soilType := SoilType.clay, waterLevel := 60, moistureLevel := 70,
        temperature := 20, rainfall := 1000, soilPH := 7, elevation := 100 }
      "toString" = none := by
  rw [getCropSuitability, if_pos (by decide)]

/-- C2 amended: for every attribute bundle and every crop-identifier string
that is not an `Object.prototype` member name, `getCropSuitability` returns
an integer in `[0, 100]`; for the twelve prototype member names the inherited
truthy lookup makes the program throw a `TypeError` instead of returning — the
one error path. -/
theorem getCropSuitability_mem_Icc (g : GeographicData) (c : String) :
    (c ∉ objectPrototypeKeys →
      ∃ n : ℤ, getCropSuitability g c = some n ∧ 0 ≤ n ∧ n ≤ 100) ∧
    (c ∈ objectPrototypeKeys → getCropSuitability g c = none) := by
  constructor
  · intro hkey
    rw [getCropSuitability, if_neg hkey]
    set r := (cropRequirements c).getD cornRequirements with hr
    have ht0 := tempScore_nonneg g r
    have ht1 := tempScore_le_100 g r
    have hr0 := rainfallScore_nonneg g r
    have hr1 := rainfallScore_le_100 g r
    have hs0 := soilScore_ge_60 g r
    have hs1 := soilScore_le_100 g r
    have hp0 := phScore_nonneg g r
    have hp1 := phScore_le_100 g r
    refine ⟨round ((tempScore g r + rainfallScore g r +
      soilScore g r + phScore g r) / 4), rfl, ?_, ?_⟩
    · have h : round (0 : ℚ) ≤ round ((tempScore g r + rainfallScore g r +
          soilScore g r + phScore g r) / 4) := round_le_round _ _ (by linarith)
      simpa using h
    · have h : round ((tempScore g r + rainfallScore g r +
          soilScore g r + phScore g r) / 4) ≤ round (100 : ℚ) :=
        round_le_round _ _ (by linarith)
      have h100 : round (100 : ℚ) = 100 := by
        rw [round_eq]
        rw [Int.floor_eq_iff]
        norm_num
      rw [h100] at h
      exact h
  · intro hkey
    rw [getCropSuitability, if_pos hkey]

/-- Closed witness for the amended C2 at the non-prototype identifier
`"Banana"`. -/
theorem getCropSuitability_mem_Icc_witness :
    "Banana" ∉ objectPrototypeKeys ∧
      ∃ n : ℤ, getCropSuitability
        { soilType := SoilType.clay, waterLevel := 60, moistureLevel := 70,
          temperature := 20, rainfall := 1000, soilPH := 7, elevation := 100 }
        "Banana" = some n ∧ 0 ≤ n ∧ n ≤ 100 := by
  have h : "Banana" ∉ objectPrototypeKeys := by decide
  exact ⟨h, (getCropSuitability_mem_Icc _ "Banana").1 h⟩

/-- C9 counterexample: at the identifier `"valueOf"` the program throws a
`TypeError` (inherited `Object.prototype` lookup) and returns nothing, not a
value at least 15. -/
theorem getCropSuitability_ge_15_counterexample :
    getCropSuitability
      { soilType := SoilType.rocky, waterLevel := 5, moistureLevel := 5,
        temperature := -40, rainfall := 100, soilPH := 3, elevation := 0 }
      "valueOf" = none := by
  rw [getCropSuitability, if_pos (by decide)]

/-- C9 amended: for every attribute bundle and every crop-identifier string
that is not an `Object.prototype` member name, the suitability score is at
least 15: the soil component is at least 60 and the other three components
are clamped to be nonnegative, so the rounded four-way average is at least
15; on the prototype member names the program throws instead. -/
theorem getCropSuitability_ge_15 (g : GeographicData) (c : String)
    (hkey : c ∉ objectPrototypeKeys) :
    ∃ n : ℤ, getCropSuitability g c = some n ∧ 15 ≤ n := by
  rw [getCropSuitability, if_neg hkey]
  set r := (cropRequirements c).getD cornRequirements with hr
  have ht0 := tempScore_nonneg g r
  have hr0 := rainfallScore_nonneg g r
  have hs0 := soilScore_ge_60 g r
  have hp0 := phScore_nonneg g r
  refine ⟨round ((tempScore g r + rainfallScore g r +
    soilScore g r + phScore g r) / 4), rfl, ?_⟩
  have h : round (15 : ℚ) ≤ round ((tempScore g r + rainfallScore g r +
      soilScore g r + phScore g r) / 4) := round_le_round _ _ (by linarith)
  have h15 : round (15 : ℚ) = 15 := by
    rw [round_eq]
    rw [Int.floor_eq_iff]
    norm_num
  rw [h15] at h
  exact h

/-- Closed witness for the amended C9 at the identifier
`"Wheat Production"`. -/
theorem getCropSuitability_ge_15_witness :
    "Wheat Production" ∉ objectPrototypeKeys ∧
      ∃ n : ℤ, getCropSuitability
        { soilType := SoilType.rocky, waterLevel := 5, moistureLevel := 5,
          temperature := -40, rainfall := 100, soilPH := 3, elevation := 0 }
        "Wheat Production" = some n ∧ 15 ≤ n := by
  have h : "Wheat Production" ∉ objectPrototypeKeys := by decide
  exact ⟨h, getCropSuitability_ge_15 _ "Wheat Production" h⟩

/-- C4 counterexample: `"toString"` is not one of the eight predefined
identifiers, yet the program throws a `TypeError` on it (inherited
`Object.prototype` lookup) instead of returning the `"Corn Production"`
score. -/
theorem getCropSuitability_unknown_eq_corn_counterexample :
    "toString" ∉ knownCropTypes ∧
      getCropSuitability
        { soilType := SoilType.loam, waterLevel := 50, moistureLevel := 50,
          temperature := 22, rainfall := 800, soilPH := 6.5, elevation := 200 }
        "toString" ≠
      getCropSuitability
        { soilType := SoilType.loam, waterLevel := 50, moistureLevel := 50,
          temperature := 22, rainfall := 800, soilPH := 6.5, elevation := 200 }
        "Corn Production" := by
  refine ⟨by decide, ?_⟩
  rw [getCropSuitability, getCropSuitability, if_pos (by decide),
    if_neg (show "Corn Production" ∉ objectPrototypeKeys by decide)]
  simp

/-- C4 amended: with a crop identifier that is neither one of the eight table
keys nor an `Object.prototype` member name, the lookup yields `undefined`,
the `||` falls back to the corn profile, and the result coincides with the
score for `"Corn Production"`; on prototype member names the program throws
instead. -/
theorem getCropSuitability_unknown_eq_corn (g : GeographicData) (c : String)
    (h : c ∉ knownCropTypes) (hkey : c ∉ objectPrototypeKeys) :
    getCropSuitability g c = getCropSuitability g "Corn Production" := by
  simp only [knownCropTypes, List.mem_cons, List.not_mem_nil, or_false, not_or] at h
  obtain ⟨h1, h2, h3, h4, h5, h6, h7, h8⟩ := h
  have hc : cropRequirements c = none := by
    rw [cropRequirements, if_neg h1, if_neg h2, if_neg h3, if_neg h4, if_neg h5,
      if_neg h6, if_neg h7, if_neg h8]
  have hcorn : cropRequirements "Corn Production" = some cornRequirements := by
    rw [cropRequirements, if_pos rfl]
  have hsame : (cropRequirements c).getD cornRequirements =
      (cropRequirements "Corn Production").getD cornRequirements := by
    rw [hc, hcorn, Option.getD_none, Option.getD_some]
  rw [getCropSuitability, getCropSuitability, if_neg hkey,
    if_neg (show "Corn Production" ∉ objectPrototypeKeys by decide), hsame]

/-- Closed witness for the amended C4 at the unknown identifier
`"Banana"`. -/
theorem getCropSuitability_unknown_eq_corn_witness :
    ("Banana" ∉ knownCropTypes ∧ "Banana" ∉ objectPrototypeKeys) ∧
      getCropSuitability
        { soilType := SoilType.loam, waterLevel := 50, moistureLevel := 50,
          temperature := 22, rainfall := 800, soilPH := 6.5, elevation := 200 }
        "Banana" =
      getCropSuitability
        { soilType := SoilType.loam, waterLevel := 50, moistureLevel := 50,
          temperature := 22, rainfall := 800, soilPH := 6.5, elevation := 200 }
        "Corn Production" := by
  have h1 : "Banana" ∉ knownCropTypes := by decide
  have h2 : "Banana" ∉ objectPrototypeKeys := by decide
  exact ⟨⟨h1, h2⟩, getCropSuitability_unknown_eq_corn _ "Banana" h1 h2⟩

/-- C5: `getCropSuitability` is deterministic.  In this embedding every
`Math.random()` call site is an explicit `RandomSource` argument; the source
of `getCropSuitability` contains no such call, so the function takes no
`RandomSource` and two calls with identical arguments agree. -/
theorem getCropSuitability_deterministic (g₁ g₂ : GeographicData)
    (c₁ c₂ : String) (hg : g₁ = g₂) (hc : c₁ = c₂) :
    getCropSuitability g₁ c₁ = getCropSuitability g₂ c₂ := by
  rw [hg, hc]

/-- Closed witness for C5 at a concrete bundle and identifier. -/
theorem getCropSuitability_deterministic_witness :
    getCropSuitability
      { soilType := SoilType.clay, waterLevel := 40, moistureLevel := 60,
        temperature := 18, rainfall := 900, soilPH := 7, elevation := 120 }
      "Rice Production" =
    getCropSuitability
      { soilType := SoilType.clay, waterLevel := 40, moistureLevel := 60,
        temperature := 18, rainfall := 900, soilPH := 7, elevation := 120 }
      "Rice Production" :=
  getCropSuitability_deterministic _ _ _ _ rfl rfl

/-- The attribute bundle of the corn scenario of C8 (temperature 22,
rainfall 800, loam, pH 6.5; the remaining fields are irrelevant). -/
def cornScenarioAttrs : GeographicData :=
  { soilType := SoilType.loam, waterLevel := 50, moistureLevel := 50,
    temperature := 22, rainfall := 800, soilPH := 6.5, elevation := 200 }

/-- C8: on the bundle with temperature 22, rainfall 800, loam soil and
pH 6.5, every one of the four component scores against the corn profile is
100 and the overall `"Corn Production"` suitability is exactly 100. -/
theorem getCropSuitability_corn_scenario :
    tempScore cornScenarioAttrs cornRequirements = 100 ∧
    rainfallScore cornScenarioAttrs cornRequirements = 100 ∧
    soilScore cornScenarioAttrs cornRequirements = 100 ∧
    phScore cornScenarioAttrs cornRequirements = 100 ∧
    getCropSuitability cornScenarioAttrs "Corn Production" = some 100 := by
  refine ⟨?_, ?_, ?_, ?_, ?_⟩
  · norm_num [tempScore, cornScenarioAttrs, cornRequirements]
  · norm_num [rainfallScore, cornScenarioAttrs, cornRequirements]
  · norm_num [soilScore, cornScenarioAttrs, cornRequirements]
  · norm_num [phScore, cornScenarioAttrs, cornRequirements]
  · rw [getCropSuitability, if_neg (show "Corn Production" ∉ objectPrototypeKeys by decide)]
    norm_num [tempScore, rainfallScore, soilScore, phScore,
      cornScenarioAttrs, cropRequirements, cornRequirements, round_eq, Int.floor_eq_iff]

/-- C10: `getCropSuitability` reads only the temperature, rainfall, soilType
and soilPH fields of its attribute argument; bundles that agree on those four
fields receive the same score for every crop identifier. -/
theorem getCropSuitability_depends_only_on_four_fields
    (g₁ g₂ : GeographicData) (c : String)
    (ht : g₁.temperature = g₂.temperature) (hr : g₁.rainfall = g₂.rainfall)
    (hs : g₁.soilType = g₂.soilType) (hp : g₁.soilPH = g₂.soilPH) :
    getCropSuitability g₁ c = getCropSuitability g₂ c := by
  cases g₁
  cases g₂
  simp only at ht hr hs hp
  subst ht hr hs hp
  rfl

/-- Closed witness for C10: two bundles differing in waterLevel,
moistureLevel and elevation only get the same score. -/
theorem getCropSuitability_depends_only_on_four_fields_witness :
    getCropSuitability
      { soilType := SoilType.sandy, waterLevel := 1, moistureLevel := 2,
        temperature := 19, rainfall := 500, soilPH := 6.2, elevation := 3 }
      "Tomato Production" =
    getCropSuitability
      { soilType := SoilType.sandy, waterLevel := 98, moistureLevel := 97,
        temperature := 19, rainfall := 500, soilPH := 6.2, elevation := 96 }
      "Tomato Production" :=
  getCropSuitability_depends_only_on_four_fields _ _ _ rfl rfl rfl rfl

lemma getClimateZone_abs (lat : ℚ) : getClimateZone lat = getClimateZone |lat| := by
  rw [getClimateZone, getClimateZone, abs_abs]

lemma getClimateZone_polar (lat : ℚ) (h : 66.5 ≤ |lat|) :
    (getClimateZone lat).name = "Polar" := by
  rw [getClimateZone, if_pos h]

lemma getClimateZone_subarctic (lat : ℚ) (h0 : 60 ≤ |lat|) (h1 : |lat| < 66.5) :
    (getClimateZone lat).name = "Subarctic" := by
  rw [getClimateZone, if_neg (not_le.mpr h1), if_pos h0]

lemma getClimateZone_continental (lat : ℚ) (h0 : 40 ≤ |lat|) (h1 : |lat| < 60) :
    (getClimateZone lat).name = "Continental" := by
  rw [getClimateZone, if_neg (not_le.mpr (by linarith)), if_neg (not_le.mpr h1), if_pos h0]

lemma getClimateZone_subtropical (lat : ℚ) (h0 : 30 ≤ |lat|) (h1 : |lat| < 40) :
    (getClimateZone lat).name = "Subtropical" := by
  rw [getClimateZone, if_neg (not_le.mpr (by linarith)), if_neg (not_le.mpr (by linarith)),
    if_neg (not_le.mpr h1), if_pos h0]

lemma getClimateZone_tropical (lat : ℚ) (h0 : 23.5 ≤ |lat|) (h1 : |lat| < 30) :
    (getClimateZone lat).name = "Tropical" := by
  rw [getClimateZone, if_neg (not_le.mpr (by linarith)), if_neg (not_le.mpr (by linarith)),
    if_neg (not_le.mpr (by linarith)), if_neg (not_le.mpr h1), if_pos h0]

lemma getClimateZone_equatorial (lat : ℚ) (h1 : |lat| < 23.5) :
    (getClimateZone lat).name = "Equatorial" := by
  rw [getClimateZone, if_neg (not_le.mpr (by linarith)), if_neg (not_le.mpr (by linarith)),
    if_neg (not_le.mpr (by linarith)), if_neg (not_le.mpr (by linarith)),
    if_neg (not_le.mpr h1)]

/-- C3: `getClimateZone` classifies by absolute latitude with the breakpoints
66.5 (Polar), 60 (Subarctic), 40 (Continental), 30 (Subtropical),
23.5 (Tropical), else Equatorial; both +66.5 and -66.5 are Polar (inclusive
lower bound), 66.49 is Subarctic, and 42.0308 is Continental with base
temperature 15 and base rainfall 800. -/
theorem getClimateZone_classification :
    (∀ lat : ℚ, getClimateZone lat = getClimateZone |lat|) ∧
    (∀ lat : ℚ, 66.5 ≤ |lat| → (getClimateZone lat).name = "Polar") ∧
    (∀ lat : ℚ, 60 ≤ |lat| → |lat| < 66.5 → (getClimateZone lat).name = "Subarctic") ∧
    (∀ lat : ℚ, 40 ≤ |lat| → |lat| < 60 → (getClimateZone lat).name = "Continental") ∧
    (∀ lat : ℚ, 30 ≤ |lat| → |lat| < 40 → (getClimateZone lat).name = "Subtropical") ∧
    (∀ lat : ℚ, 23.5 ≤ |lat| → |lat| < 30 → (getClimateZone lat).name = "Tropical") ∧
    (∀ lat : ℚ, |lat| < 23.5 → (getClimateZone lat).name = "Equatorial") ∧
    (getClimateZone 66.5).name = "Polar" ∧
    (getClimateZone (-66.5)).name = "Polar" ∧
    (getClimateZone 66.49).name = "Subarctic" ∧
    (getClimateZone 42.0308).name = "Continental" ∧
    (getClimateZone 42.0308).baseTemperature = 15 ∧
    (getClimateZone 42.0308).baseRainfall = 800 := by
  refine ⟨getClimateZone_abs, getClimateZone_polar, getClimateZone_subarctic,
    getClimateZone_continental, getClimateZone_subtropical, getClimateZone_tropical,
    getClimateZone_equatorial, ?_, ?_, ?_, ?_, ?_, ?_⟩
  · exact getClimateZone_polar _ (by norm_num [abs_of_nonneg])
  · exact getClimateZone_polar _ (by norm_num [abs_of_nonpos])
  · exact getClimateZone_subarctic _ (by norm_num [abs_of_nonneg]) (by norm_num [abs_of_nonneg])
  · exact getClimateZone_continental _ (by norm_num [abs_of_nonneg]) (by norm_num [abs_of_nonneg])
  · norm_num [getClimateZone, abs_of_nonneg]
  · norm_num [getClimateZone, abs_of_nonneg]

/-- Closed witness for C3: instantiation of the universally quantified
breakpoint clauses at concrete latitudes. -/
theorem getClimateZone_classification_witness :
    (66.5 ≤ |(70 : ℚ)| ∧ (getClimateZone 70).name = "Polar") ∧
      (|(-12 : ℚ)| < 23.5 ∧ (getClimateZone (-12)).name = "Equatorial") := by
  have h70 : (66.5 : ℚ) ≤ |(70 : ℚ)| := by norm_num [abs_of_nonneg]
  have h12 : |(-12 : ℚ)| < 23.5 := by norm_num [abs_of_nonpos]
  exact ⟨⟨h70, getClimateZone_classification.2.1 70 h70⟩,
    ⟨h12, getClimateZone_classification.2.2.2.2.2.2.1 (-12) h12⟩⟩

lemma ratTrunc_eq_ceil (y : ℚ) (h : y ≤ 0) : ratTrunc y = ⌈y⌉ := by
  rw [ratTrunc]
  split
  · have hy : y = 0 := le_antisymm h (by assumption)
    subst hy
    simp
  · rfl

lemma jsMod_add_sixty_nonneg (x : ℚ) (h : 0 ≤ x) : jsMod (x + 60) 60 = jsMod x 60 := by
  rw [jsMod, jsMod]
  have hx : ratTrunc ((x + 60) / 60) = ratTrunc (x / 60) + 1 := by
    rw [ratTrunc, ratTrunc, if_pos (by positivity), if_pos (by positivity)]
    rw [show (x + 60) / 60 = x / 60 + 1 by ring]
    exact_mod_cast Int.floor_add_int (x / 60) 1
  rw [hx]
  push_cast
  ring

lemma jsMod_add_sixty_nonpos (x : ℚ) (h : x + 60 ≤ 0) : jsMod (x + 60) 60 = jsMod x 60 := by
  rw [jsMod, jsMod]
  have hx0 : x ≤ 0 := by linarith
  have hx : ratTrunc ((x + 60) / 60) = ratTrunc (x / 60) + 1 := by
    rw [ratTrunc_eq_ceil _ (by linarith [div_nonpos_of_nonpos_of_nonneg h (by norm_num : (0:ℚ) ≤ 60)]),
      ratTrunc_eq_ceil _ (div_nonpos_of_nonpos_of_nonneg hx0 (by norm_num)),
      show (x + 60) / 60 = x / 60 + 1 by ring]
    exact_mod_cast Int.ceil_add_int (x / 60) 1
  rw [hx]
  push_cast
  ring

/-- C7 counterexample: the 60-degree periodicity fails as stated.  At
longitude -10 the influence is 1/2, at -10 + 60 = 50 it is 0, although both
longitudes lie in [-180, 180]. -/
theorem getCoastalInfluence_periodicity_counterexample :
    (-180 : ℚ) ≤ -10 ∧ (-10 : ℚ) + 60 ≤ 180 ∧
      getCoastalInfluence 0 ((-10) + 60) ≠ getCoastalInfluence 0 (-10) := by
  refine ⟨by norm_num, by norm_num, ?_⟩
  have hA : getCoastalInfluence 0 (-10) = 1 / 2 := by
    have h1 : jsMod (-10) 60 = -10 := by
      rw [jsMod_eval (-10) 60 0 (ratTrunc_neg_eval _ 0 (by norm_num) (by norm_num) (by norm_num))]
      norm_num
    have h2 : jsMod ((-10) + 180) 60 = 50 := by
      rw [jsMod_eval _ 60 2 (ratTrunc_nonneg_eval _ 2 (by norm_num) (by norm_num) (by norm_num))]
      norm_num
    rw [getCoastalInfluence, h1, h2]
    norm_num [sup_eq_max, inf_eq_min, max_def, min_def, abs_of_nonneg, abs_of_nonpos]
  have hB : getCoastalInfluence 0 ((-10) + 60) = 0 := by
    have h1 : jsMod ((-10) + 60) 60 = 50 := by
      rw [jsMod_eval _ 60 0 (ratTrunc_nonneg_eval _ 0 (by norm_num) (by norm_num) (by norm_num))]
      norm_num
    have h2 : jsMod ((-10) + 60 + 180) 60 = 50 := by
      rw [jsMod_eval _ 60 3 (ratTrunc_nonneg_eval _ 3 (by norm_num) (by norm_num) (by norm_num))]
      norm_num
    rw [getCoastalInfluence, h1, h2]
    norm_num [sup_eq_max, inf_eq_min, max_def, min_def, abs_of_nonneg]
  rw [hA, hB]
  norm_num

/-- C7 amended: the coastal influence lies in [0,1] and ignores the latitude
argument; the 60-degree shift identity holds whenever the shifted and
unshifted longitudes are in range and on the same side of zero (the
JavaScript remainder truncates toward zero, so the identity fails when the
shift crosses zero, as the counterexample at longitude -10 shows). -/
theorem getCoastalInfluence_spec (lat lng : ℚ) :
    (0 ≤ getCoastalInfluence lat lng ∧ getCoastalInfluence lat lng ≤ 1) ∧
    (∀ lat' : ℚ, getCoastalInfluence lat' lng = getCoastalInfluence lat lng) ∧
    ((0 ≤ lng ∧ lng + 60 ≤ 180) ∨ ((-180 : ℚ) ≤ lng ∧ lng + 60 ≤ 0) →
      getCoastalInfluence lat (lng + 60) = getCoastalInfluence lat lng) := by
  refine ⟨⟨le_max_left 0 _, ?_⟩, fun lat' => rfl, ?_⟩
  · rw [getCoastalInfluence]
    have hp : 0 ≤ min |jsMod lng 60| |jsMod (lng + 180) 60| :=
      le_min (abs_nonneg _) (abs_nonneg _)
    exact max_le (by norm_num) (by linarith [div_le_one_of_le₀ (by linarith : (20 : ℚ) - min |jsMod lng 60| |jsMod (lng + 180) 60| ≤ 20) (by norm_num : (0:ℚ) ≤ 20)])
  · intro h
    have harg : jsMod (lng + 60) 60 = jsMod lng 60 ∧
        jsMod (lng + 60 + 180) 60 = jsMod (lng + 180) 60 := by
      rcases h with ⟨h0, _⟩ | ⟨h0, h1⟩
      · exact ⟨jsMod_add_sixty_nonneg lng h0,
          by rw [show lng + 60 + 180 = lng + 180 + 60 by ring,
            jsMod_add_sixty_nonneg (lng + 180) (by linarith)]⟩
      · exact ⟨jsMod_add_sixty_nonpos lng h1,
          by rw [show lng + 60 + 180 = lng + 180 + 60 by ring,
            jsMod_add_sixty_nonneg (lng + 180) (by linarith)]⟩
    rw [getCoastalInfluence, getCoastalInfluence, harg.1, harg.2]

/-- Closed witness for the amended C7 at longitude 30 (both 30 and 90
nonnegative and in range). -/
theorem getCoastalInfluence_spec_witness :
    ((0 : ℚ) ≤ 30 ∧ (30 : ℚ) + 60 ≤ 180) ∧
      getCoastalInfluence 7 (30 + 60) = getCoastalInfluence 7 30 :=
  ⟨⟨by norm_num, by norm_num⟩,
    (getCoastalInfluence_spec 7 30).2.2 (Or.inl ⟨by norm_num, by norm_num⟩)⟩

lemma soilType_mem_five (s : SoilType) :
    s = SoilType.clay ∨ s = SoilType.sandy ∨ s = SoilType.loam ∨
      s = SoilType.rocky ∨ s = SoilType.peat := by
  cases s <;> tauto

lemma getGeographicData_moistureLevel_shape (lat lng : ℚ) (rng : RandomSource) :
    ∃ m : ℤ, (getGeographicData lat lng rng).moistureLevel = ((max 20 (min 100 m) : ℤ) : ℚ) := by
  simp only [getGeographicData]
  exact ⟨_, rfl⟩

lemma getGeographicData_waterLevel_shape (lat lng : ℚ) (rng : RandomSource) :
    ∃ m : ℤ, (getGeographicData lat lng rng).waterLevel = ((max 10 (min 100 m) : ℤ) : ℚ) := by
  simp only [getGeographicData]
  exact ⟨_, rfl⟩

lemma getGeographicData_rainfall_shape (lat lng : ℚ) (rng : RandomSource) :
    ∃ m : ℤ, (getGeographicData lat lng rng).rainfall = ((max 100 m : ℤ) : ℚ) := by
  simp only [getGeographicData]
  exact ⟨_, rfl⟩

lemma getGeographicData_elevation_shape (lat lng : ℚ) (rng : RandomSource) :
    ∃ m : ℤ, (getGeographicData lat lng rng).elevation = ((max 0 m : ℤ) : ℚ) := by
  simp only [getGeographicData, getElevationFromCoordinates]
  exact ⟨_, rfl⟩

lemma getGeographicData_soilPH_shape (lat lng : ℚ) (rng : RandomSource) :
    ∃ q : ℤ, (getGeographicData lat lng rng).soilPH = max 3 (min 9 ((q : ℚ) / 10)) := by
  simp only [getGeographicData]
  exact ⟨_, rfl⟩

/-- C1: for every latitude, longitude and assignment of values to the random
draws, the `GeographicData` record returned by `getGeographicData` has an
integer moistureLevel in [20,100], an integer waterLevel in [10,100], an
integer rainfall at least 100, an integer elevation at least 0, a soilPH in
[3,9], and a soilType among the five enumerated values. -/
theorem getGeographicData_bounds (lat lng : ℚ) (rng : RandomSource) :
    (∃ n : ℤ, (getGeographicData lat lng rng).moistureLevel = (n : ℚ) ∧ 20 ≤ n ∧ n ≤ 100) ∧
    (∃ n : ℤ, (getGeographicData lat lng rng).waterLevel = (n : ℚ) ∧ 10 ≤ n ∧ n ≤ 100) ∧
    (∃ n : ℤ, (getGeographicData lat lng rng).rainfall = (n : ℚ) ∧ 100 ≤ n) ∧
    (∃ n : ℤ, (getGeographicData lat lng rng).elevation = (n : ℚ) ∧ 0 ≤ n) ∧
    (3 ≤ (getGeographicData lat lng rng).soilPH ∧ (getGeographicData lat lng rng).soilPH ≤ 9) ∧
    ((getGeographicData lat lng rng).soilType = SoilType.clay ∨
      (getGeographicData lat lng rng).soilType = SoilType.sandy ∨
      (getGeographicData lat lng rng).soilType = SoilType.loam ∨
      (getGeographicData lat lng rng).soilType = SoilType.rocky ∨
      (getGeographicData lat lng rng).soilType = SoilType.peat) := by
  obtain ⟨m₁, hm₁⟩ := getGeographicData_moistureLevel_shape lat lng rng
  obtain ⟨m₂, hm₂⟩ := getGeographicData_waterLevel_shape lat lng rng
  obtain ⟨m₃, hm₃⟩ := getGeographicData_rainfall_shape lat lng rng
  obtain ⟨m₄, hm₄⟩ := getGeographicData_elevation_shape lat lng rng
  obtain ⟨q, hq⟩ := getGeographicData_soilPH_shape lat lng rng
  refine ⟨⟨max 20 (min 100 m₁), hm₁, le_max_left _ _, max_le (by norm_num) (min_le_left _ _)⟩,
    ⟨max 10 (min 100 m₂), hm₂, le_max_left _ _, max_le (by norm_num) (min_le_left _ _)⟩,
    ⟨max 100 m₃, hm₃, le_max_left _ _⟩,
    ⟨max 0 m₄, hm₄, le_max_left _ _⟩,
    ⟨?_, ?_⟩, soilType_mem_five _⟩
  · rw [hq]
    exact le_max_left _ _
  · rw [hq]
    exact max_le (by norm_num) (min_le_left _ _)


lemma sqrt_ge_ten (x : ℝ) (h : 100 ≤ x) : ¬ (Real.sqrt x < 10) := by
  rw [Real.sqrt_lt' (by norm_num)]
  linarith

lemma round_eval (x : ℝ) (n : ℤ) (h1 : (n : ℝ) ≤ x + 1 / 2) (h2 : x + 1 / 2 < n + 1) :
    round x = n := by
  rw [round_eq]
  exact Int.floor_eq_iff.mpr ⟨h1, h2⟩

lemma elev_00 : getElevationFromCoordinates 0 0 (1 / 2 : ℝ) = 200 := by
  simp only [getElevationFromCoordinates, mountainousRegions, List.foldl]
  rw [if_neg (sqrt_ge_ten _ (by push_cast; norm_num)),
    if_neg (sqrt_ge_ten _ (by push_cast; norm_num)),
    if_neg (sqrt_ge_ten _ (by push_cast; norm_num)),
    if_neg (sqrt_ge_ten _ (by push_cast; norm_num))]
  rw [round_eval _ 200 (by norm_num) (by norm_num)]
  omega

lemma elev_50_30 : getElevationFromCoordinates 50 30 (1 / 2 : ℝ) = 200 := by
  simp only [getElevationFromCoordinates, mountainousRegions, List.foldl]
  rw [if_neg (sqrt_ge_ten _ (by push_cast; norm_num)),
    if_neg (sqrt_ge_ten _ (by push_cast; norm_num)),
    if_neg (sqrt_ge_ten _ (by push_cast; norm_num)),
    if_neg (sqrt_ge_ten _ (by push_cast; norm_num))]
  rw [round_eval _ 200 (by norm_num) (by norm_num)]
  omega

lemma elev_0_30 : getElevationFromCoordinates 0 30 (1 / 2 : ℝ) = 200 := by
  simp only [getElevationFromCoordinates, mountainousRegions, List.foldl]
  rw [if_neg (sqrt_ge_ten _ (by push_cast; norm_num)),
    if_neg (sqrt_ge_ten _ (by push_cast; norm_num)),
    if_neg (sqrt_ge_ten _ (by push_cast; norm_num)),
    if_neg (sqrt_ge_ten _ (by push_cast; norm_num))]
  rw [round_eval _ 200 (by norm_num) (by norm_num)]
  omega

lemma coast_00 : getCoastalInfluence 0 0 = 1 := by
  have h1 : jsMod 0 60 = 0 := by
    rw [jsMod_eval _ 60 0 (ratTrunc_nonneg_eval _ 0 (by norm_num) (by norm_num) (by norm_num))]
    norm_num
  have h2 : jsMod (0 + 180) 60 = 0 := by
    rw [jsMod_eval _ 60 3 (ratTrunc_nonneg_eval _ 3 (by norm_num) (by norm_num) (by norm_num))]
    norm_num
  rw [getCoastalInfluence, h1, h2]
  norm_num

lemma coast_50_30 : getCoastalInfluence 50 30 = 0 := by
  have h1 : jsMod 30 60 = 30 := by
    rw [jsMod_eval _ 60 0 (ratTrunc_nonneg_eval _ 0 (by norm_num) (by norm_num) (by norm_num))]
    norm_num
  have h2 : jsMod (30 + 180) 60 = 30 := by
    rw [jsMod_eval _ 60 3 (ratTrunc_nonneg_eval _ 3 (by norm_num) (by norm_num) (by norm_num))]
    norm_num
  rw [getCoastalInfluence, h1, h2]
  norm_num [sup_eq_max, inf_eq_min, max_def, min_def, abs_of_nonneg]

lemma coast_0_30 : getCoastalInfluence 0 30 = 0 := by
  have h1 : jsMod 30 60 = 30 := by
    rw [jsMod_eval _ 60 0 (ratTrunc_nonneg_eval _ 0 (by norm_num) (by norm_num) (by norm_num))]
    norm_num
  have h2 : jsMod (30 + 180) 60 = 30 := by
    rw [jsMod_eval _ 60 3 (ratTrunc_nonneg_eval _ 3 (by norm_num) (by norm_num) (by norm_num))]
    norm_num
  rw [getCoastalInfluence, h1, h2]
  norm_num [sup_eq_max, inf_eq_min, max_def, min_def, abs_of_nonneg]

lemma czone_0 : getClimateZone 0 =
    { name := "Equatorial", baseTemperature := 26, baseRainfall := 2500,
      baseMoisture := 85, dominantSoilType := SoilType.loam } := by
  norm_num [getClimateZone]

lemma czone_50 : getClimateZone 50 =
    { name := "Continental", baseTemperature := 15, baseRainfall := 800,
      baseMoisture := 65, dominantSoilType := SoilType.loam } := by
  norm_num [getClimateZone, abs_of_nonneg]

noncomputable def midDraws : RandomSource :=
  { elevationDraw := 1/2, temperatureDraw := 1/2, rainfallDraw := 1/2,
    moistureDraw := 1/2, waterDraw := 1/2, soilOverrideDraw := 1/2,
    soilPickDraw := 1/2, phDraw := 1/2 }

noncomputable def tempVariedDraws : RandomSource := { midDraws with temperatureDraw := 19/20 }

lemma temp_00_mid : (getGeographicData 0 0 midDraws).temperature = 28 := by
  simp only [getGeographicData, midDraws]
  rw [czone_0, elev_00, coast_00]
  rw [round_eval _ 28 (by push_cast; norm_num) (by push_cast; norm_num)]
  norm_num

lemma temp_00_varied : (getGeographicData 0 0 tempVariedDraws).temperature = 32 := by
  simp only [getGeographicData, tempVariedDraws, midDraws]
  rw [czone_0, elev_00, coast_00]
  rw [round_eval _ 32 (by push_cast; norm_num) (by push_cast; norm_num)]
  norm_num

lemma rain_00_mid : (getGeographicData 0 0 midDraws).rainfall = 2800 := by
  simp only [getGeographicData, midDraws]
  rw [czone_0, elev_00, coast_00]
  rw [if_neg (show ¬((1000 : ℤ) < 200) by norm_num)]
  rw [round_eval _ 2800 (by push_cast; norm_num) (by push_cast; norm_num)]
  norm_num

noncomputable def moistVariedDraws : RandomSource := { midDraws with moistureDraw := 19/20 }

lemma moist_50_30_mid : (getGeographicData 50 30 midDraws).moistureLevel = 61 := by
  simp only [getGeographicData, midDraws]
  rw [czone_50, elev_50_30, coast_50_30]
  rw [if_neg (show ¬((1000 : ℤ) < 200) by norm_num)]
  rw [if_neg (show ¬((500 : ℤ) < 200) by norm_num)]
  norm_num

lemma moist_50_30_varied : (getGeographicData 50 30 moistVariedDraws).moistureLevel = 70 := by
  simp only [getGeographicData, moistVariedDraws, midDraws]
  rw [czone_50, elev_50_30, coast_50_30]
  rw [if_neg (show ¬((1000 : ℤ) < 200) by norm_num)]
  rw [if_neg (show ¬((500 : ℤ) < 200) by norm_num)]
  norm_num

noncomputable def waterVariedDraws : RandomSource := { midDraws with waterDraw := 1/20 }

lemma water_0_30_mid : (getGeographicData 0 30 midDraws).waterLevel = 100 := by
  simp only [getGeographicData, midDraws]
  rw [czone_0, elev_0_30, coast_0_30]
  rw [if_neg (show ¬((1000 : ℤ) < 200) by norm_num)]
  rw [if_neg (show ¬((200 : ℤ) < 100) by norm_num)]
  norm_num [Real.sin_zero]

lemma water_0_30_varied : (getGeographicData 0 30 waterVariedDraws).waterLevel = 90 := by
  simp only [getGeographicData, waterVariedDraws, midDraws]
  rw [czone_0, elev_0_30, coast_0_30]
  rw [if_neg (show ¬((1000 : ℤ) < 200) by norm_num)]
  rw [if_neg (show ¬((200 : ℤ) < 100) by norm_num)]
  norm_num [Real.sin_zero]
  rw [show round ((359 / 4 : ℝ)) = 90 from round_eval _ 90 (by norm_num) (by norm_num)]
  norm_num [sup_eq_max, inf_eq_min, max_def, min_def]

noncomputable def soilVariedDraws : RandomSource := { midDraws with soilOverrideDraw := 1/10 }

lemma soil_0_30_mid : (getGeographicData 0 30 midDraws).soilType = SoilType.clay := by
  simp only [getGeographicData, midDraws, czone_0, elev_0_30, coast_0_30]
  norm_num
  simp only [show round ((124 / 5 : ℝ)) = 25 from round_eval _ 25 (by norm_num) (by norm_num)]
  norm_num

lemma soil_0_30_varied : (getGeographicData 0 30 soilVariedDraws).soilType = SoilType.loam := by
  simp only [getGeographicData, soilVariedDraws, midDraws, czone_0, elev_0_30, coast_0_30]
  norm_num [soilTypes]
  decide

noncomputable def phVariedDraws : RandomSource := { midDraws with phDraw := 19/20 }

lemma ph_0_30_mid : (getGeographicData 0 30 midDraws).soilPH = 36 / 5 := by
  simp only [getGeographicData, midDraws, czone_0, elev_0_30, coast_0_30]
  norm_num
  simp only [show round ((124 / 5 : ℝ)) = 25 from round_eval _ 25 (by norm_num) (by norm_num)]
  norm_num
  simp only [eq_false (show ¬(SoilType.clay = SoilType.peat) by decide),
    eq_false (show ¬(SoilType.clay = SoilType.sandy) by decide), if_false]
  norm_num [sup_eq_max, inf_eq_min, max_def, min_def]

lemma ph_0_30_varied : (getGeographicData 0 30 phVariedDraws).soilPH = 81 / 10 := by
  simp only [getGeographicData, phVariedDraws, midDraws, czone_0, elev_0_30, coast_0_30]
  norm_num
  simp only [show round ((124 / 5 : ℝ)) = 25 from round_eval _ 25 (by norm_num) (by norm_num)]
  norm_num
  simp only [eq_false (show ¬(SoilType.clay = SoilType.peat) by decide),
    eq_false (show ¬(SoilType.clay = SoilType.sandy) by decide), if_false]
  norm_num [sup_eq_max, inf_eq_min, max_def, min_def]

noncomputable def rainVariedDraws : RandomSource := { midDraws with rainfallDraw := 19/20 }

lemma rain_00_varied : (getGeographicData 0 0 rainVariedDraws).rainfall = 2980 := by
  simp only [getGeographicData, rainVariedDraws, midDraws]
  rw [czone_0, elev_00, coast_00]
  rw [if_neg (show ¬((1000 : ℤ) < 200) by norm_num)]
  norm_num

/-- C6: `getGeographicData` is genuinely non-deterministic: at fixed
coordinates, changing a single random draw changes the returned record.
Each of the six conjuncts varies exactly one draw of `midDraws` (the
temperature, rainfall, moisture, water-level, soil-type-override and pH
jitter respectively) and the corresponding output field moves:
temperature 28 to 32, rainfall 2800 to 2980, moisture 61 to 70,
water level 100 to 90, soil type clay to loam, soil pH 7.2 to 8.1. -/
theorem getGeographicData_nondeterministic :
    getGeographicData 0 0 midDraws ≠ getGeographicData 0 0 tempVariedDraws ∧
    getGeographicData 0 0 midDraws ≠ getGeographicData 0 0 rainVariedDraws ∧
    getGeographicData 50 30 midDraws ≠ getGeographicData 50 30 moistVariedDraws ∧
    getGeographicData 0 30 midDraws ≠ getGeographicData 0 30 waterVariedDraws ∧
    getGeographicData 0 30 midDraws ≠ getGeographicData 0 30 soilVariedDraws ∧
    getGeographicData 0 30 midDraws ≠ getGeographicData 0 30 phVariedDraws := by
  refine ⟨?_, ?_, ?_, ?_, ?_, ?_⟩
  · intro h
    have hc := congrArg GeographicData.temperature h
    rw [temp_00_mid, temp_00_varied] at hc
    norm_num at hc
  · intro h
    have hc := congrArg GeographicData.rainfall h
    rw [rain_00_mid, rain_00_varied] at hc
    norm_num at hc
  · intro h
    have hc := congrArg GeographicData.moistureLevel h
    rw [moist_50_30_mid, moist_50_30_varied] at hc
    norm_num at hc
  · intro h
    have hc := congrArg GeographicData.waterLevel h
    rw [water_0_30_mid, water_0_30_varied] at hc
    norm_num at hc
  · intro h
    have hc := congrArg GeographicData.soilType h
    rw [soil_0_30_mid, soil_0_30_varied] at hc
    exact absurd hc (by decide)
  · intro h
    have hc := congrArg GeographicData.soilPH h
    rw [ph_0_30_mid, ph_0_30_varied] at hc
    norm_num at hc
